import Mathlib

/-!
Verification development for the agente-portero backend.

Shallow embedding of the QR credential lifecycle
(`services/backend/api/v1/qr.py`, `services/backend/api/v1/qr_ops.py`),
the access-device client (`services/backend/infrastructure/hikvision/client.py`),
the fast-path dispatcher (`services/whatsapp-service/fast_path.py`) and the
voice-session barge-in handler (`services/voice-service/call_session.py`).

Conventions of the embedding:
- UUIDs are modelled as `Nat`.
- Timestamps (naive-UTC datetimes, `time.time()` values) are modelled as `Int`,
  in milliseconds where sub-second constants occur (voice session), otherwise
  in arbitrary units.
- HTTP devices are modelled as oracles: functions from the request actually
  issued (body, attempt index, door) to the observed response
  (`Option Nat` status, `none` = exception/network error).
- Randomness (card-number generation) is modelled as an explicit stream of
  choices passed as a function argument.
- Python `raise HTTPException` short-circuits; embedded operations return a
  result record whose `response` is `Except HttpError _` and whose state
  fields equal the pre-state on every error path, mirroring the fact that the
  raise happens before any mutation/commit.
-/

/-- Access points, the closed set of the `AccessPoint` `Literal` in
`qr_ops.py`. -/
inductive AccessPoint where
  | vehicular_entry
  | vehicular_exit
  | pedestrian
deriving DecidableEq, Repr

/-- String form of an access point, as stored in JSON columns. -/
def AccessPoint.str : AccessPoint → String
  | .vehicular_entry => "vehicular_entry"
  | .vehicular_exit => "vehicular_exit"
  | .pedestrian => "pedestrian"

/-- Direction literal of `qr_ops.py`. -/
inductive Direction where
  | entry
  | exit
deriving DecidableEq, Repr

/-- String form of a direction. -/
def Direction.str : Direction → String
  | .entry => "entry"
  | .exit => "exit"

/-- An HTTPException: status code and detail string. -/
structure HttpError where
  statusCode : Nat
  detail : String
deriving DecidableEq, Repr

/-- Result dict of `HikvisionGateClient.open_gate`: the `success` flag and the
`method` tag (present only on success). -/
structure GateResult where
  success : Bool
  method : Option String
deriving DecidableEq, Repr

/-- The open-door mechanisms named by the spec (§4.4). -/
inductive OpenMethod where
  | access_control
  | access_control_v2
  | io_trigger
  | alarm_output
  | curl_digest
deriving DecidableEq, Repr

/-- Behaviour of one access panel, as observed by
`HikvisionGateClient.open_gate`: `put door body` is the HTTP status of the
httpx `PUT /ISAPI/AccessControl/RemoteControl/door/{door}` with that body
(`none` = exception), `curl door body` is the `http_code` string printed by
the curl subprocess fallback (`none` = exception). -/
structure PanelBehavior where
  put : Nat → String → Option Nat
  curl : Nat → String → Option String

/-- `_request` success recognition in `client.py`:
`response.status_code in (200, 204)`; an exception yields failure. -/
def hikRequestOk (r : Option Nat) : Bool :=
  match r with
  | some s => s == 200 || s == 204
  | none => false

/-- The exact XML body used by `HikvisionGateClient.open_gate`. -/
def hik_open_xml_body : String := "<RemoteControlDoor><cmd>open</cmd></RemoteControlDoor>"

/-- Embedding of `HikvisionGateClient.open_gate` (client.py lines 69-113).
Returns the result dict together with the ordered list of mechanisms that
were actually attempted.  The code posts the plain strict body via httpx;
on success the method tag is `access_control`; on any failure it shells out
to curl with the same body, accepting http_code 200/204 (`curl_digest`);
otherwise the whole call fails. -/
def open_gate (dev : PanelBehavior) (door_id : Nat) : GateResult × List OpenMethod :=
  if hikRequestOk (dev.put door_id hik_open_xml_body) then
    ({ success := true, method := some "access_control" }, [OpenMethod.access_control])
  else
    match dev.curl door_id hik_open_xml_body with
    | some code =>
        if code == "200" || code == "204" then
          ({ success := true, method := some "curl_digest" },
           [OpenMethod.access_control, OpenMethod.curl_digest])
        else
          ({ success := false, method := none },
           [OpenMethod.access_control, OpenMethod.curl_digest])
    | none =>
        ({ success := false, method := none },
         [OpenMethod.access_control, OpenMethod.curl_digest])

/-- Row of the `qr_tokens` table (domain/models/qr_token.py), restricted to
the columns the QR lifecycle reads or writes.  The JSON `extra_data` map is
flattened to the two keys the code uses. -/
structure QrToken where
  id : Nat
  condominium_id : Nat
  resident_id : Option Nat
  visitor_id : Option Nat
  credential_id : Option Nat
  token : String
  allowed_access_points : List String
  expires_at : Int
  used_at : Option Int
  revoked_at : Option Int
  max_uses : Option Nat
  use_count : Nat
  extra_visitor_name : Option String
  extra_card_no : Option String
deriving DecidableEq, Repr

/-- Row of the `access_credentials` table, restricted to the columns the QR
lifecycle reads or writes. -/
structure AccessCredential where
  id : Nat
  condominium_id : Nat
  status : String
  used_at : Option Int
  revoked_at : Option Int
  max_uses : Option Nat
  use_count : Nat
deriving DecidableEq, Repr

/-- AccessLog row appended by `consume_qr`, restricted to the fields the code
sets (the `extra_data` map flattened to its keys). -/
structure AccessLogRow where
  condominium_id : Nat
  event_type : String
  access_point : AccessPoint
  direction : String
  resident_id : Option Nat
  visitor_id : Option Nat
  visitor_name : Option String
  authorization_method : String
  gate_opened : Bool
  gate_method : Option String
  device_host : String
  door_id : Nat
deriving DecidableEq, Repr

/-- AuditLog row, restricted to the fields the QR lifecycle sets. -/
structure AuditLogRow where
  condominium_id : Nat
  actor_type : String
  actor_id : Option String
  action : String
  resource_type : String
  resource_id : Nat
  status : String
  message : String
deriving DecidableEq, Repr

/-- Request body of `POST /qr/consume`. -/
structure ConsumeQrRequest where
  token : String
  access_point : AccessPoint
  direction : Direction
deriving DecidableEq, Repr

/-- Response body of `POST /qr/consume`. -/
structure ConsumeQrResponse where
  accepted : Bool
  token : String
  direction : Direction
  access_point : AccessPoint
  use_count : Nat
  max_uses : Option Nat
  gate_opened : Bool
  gate_method : Option String
deriving DecidableEq, Repr

/-- The app settings consumed by the QR lifecycle (config.py). -/
structure AppSettings where
  hik_panel_host : String
  hik_pedestrian_host : String
  hik_bio1_host : String
  hik_bio2_host : String
  qr_card_digits : Nat
deriving DecidableEq, Repr

/-- Door/host mapping of `consume_qr` (qr_ops.py lines 160-180): the chain of
`if/elif` branches covers all three access points. -/
def consume_door_host (s : AppSettings) : AccessPoint → Nat × String
  | .vehicular_entry => (1, s.hik_panel_host)
  | .vehicular_exit => (2, s.hik_panel_host)
  | .pedestrian => (1, s.hik_pedestrian_host)

/-- `qr.max_uses is not None and qr.use_count >= qr.max_uses`. -/
def usage_limit_reached (max_uses : Option Nat) (use_count : Nat) : Bool :=
  match max_uses with
  | some m => m ≤ use_count
  | none => false

deriving instance DecidableEq for Except

/-- Full observable outcome of one `consume_qr` request: HTTP response,
database state afterwards (qr token rows, matched credential row), whether
and where the device open call was made, and the rows appended. -/
structure ConsumeResult where
  response : Except HttpError ConsumeQrResponse
  dbAfter : List QrToken
  qrAfter : Option QrToken
  credAfter : Option AccessCredential
  gateCall : Option (String × Nat)
  accessLog : Option AccessLogRow
  audit : Option AuditLogRow
deriving DecidableEq, Repr

/-- Error outcome of `consume_qr`: the HTTPException is raised before any
mutation, device call or log insert, so everything is the pre-state. -/
def consumeErr (e : HttpError) (db : List QrToken) (qr? : Option QrToken)
    (cred? : Option AccessCredential) : ConsumeResult :=
  { response := Except.error e
    dbAfter := db
    qrAfter := qr?
    credAfter := cred?
    gateCall := none
    accessLog := none
    audit := none }

/-- Embedding of `consume_qr` (qr_ops.py lines 117-245).

Checks, in source order, each raising before any state change:
token lookup + tenant (404), `revoked_at` (410), `expires_at <= now` (410),
access point membership (403), usage limit (410).  On success it increments
`use_count`, stamps `used_at`, mirrors into the credential, opens the gate
through `open_gate` and appends an AccessLog and an AuditLog whose status
reflects whether the gate opened. -/
def consume_qr (s : AppSettings) (db : List QrToken) (creds : List AccessCredential)
    (tenant_id : Nat) (req : ConsumeQrRequest) (now : Int) (dev : PanelBehavior) :
    ConsumeResult :=
  match db.find? (fun q => q.token == req.token) with
  | none => consumeErr ⟨404, "QR not found"⟩ db none none
  | some qr =>
    let cred0 := qr.credential_id.bind (fun cid => creds.find? (fun c => c.id == cid))
    if qr.condominium_id ≠ tenant_id then
      consumeErr ⟨404, "QR not found"⟩ db (some qr) cred0
    else if qr.revoked_at ≠ none then
      consumeErr ⟨410, "QR revoked"⟩ db (some qr) cred0
    else if qr.expires_at ≤ now then
      consumeErr ⟨410, "QR expired"⟩ db (some qr) cred0
    else if ¬ qr.allowed_access_points.contains req.access_point.str then
      consumeErr ⟨403, "Access point not allowed"⟩ db (some qr) cred0
    else if usage_limit_reached qr.max_uses qr.use_count then
      consumeErr ⟨410, "QR usage limit reached"⟩ db (some qr) cred0
    else
      let qr1 : QrToken := { qr with use_count := qr.use_count + 1, used_at := some now }
      let cred1 := cred0.map (fun c =>
        if c.condominium_id = tenant_id then
          let c1 : AccessCredential := { c with use_count := c.use_count + 1, used_at := some now }
          if usage_limit_reached c1.max_uses c1.use_count then { c1 with status := "used" } else c1
        else c)
      let dh := consume_door_host s req.access_point
      let door_id := dh.1
      let host := dh.2
      let gr := (open_gate dev door_id).1
      let gate_opened := gr.success
      let gate_method := if gate_opened then gr.method else none
      { response := Except.ok
          { accepted := true
            token := req.token
            direction := req.direction
            access_point := req.access_point
            use_count := qr1.use_count
            max_uses := qr1.max_uses
            gate_opened := gate_opened
            gate_method := gate_method }
        dbAfter := db.map (fun q => if q.id == qr.id then qr1 else q)
        qrAfter := some qr1
        credAfter := cred1
        gateCall := some (host, door_id)
        accessLog := some
          { condominium_id := tenant_id
            event_type := req.direction.str
            access_point := req.access_point
            direction := req.direction.str
            resident_id := qr.resident_id
            visitor_id := qr.visitor_id
            visitor_name := qr.extra_visitor_name
            authorization_method := "qr"
            gate_opened := gate_opened
            gate_method := gate_method
            device_host := host
            door_id := door_id }
        audit := some
          { condominium_id := tenant_id
            actor_type := "system"
            actor_id := none
            action := "consume_qr"
            resource_type := "qr_token"
            resource_id := qr.id
            status := if gate_opened then "success" else "failure"
            message := "consumed at " ++ req.access_point.str ++ " (" ++ req.direction.str
              ++ "); opened=" ++ (if gate_opened then "True" else "False") } }

/-- Response body of `POST /qr/revoke`. -/
structure RevokeQrResponse where
  revoked : Bool
  token : String
deriving DecidableEq, Repr

/-- Request body of `POST /qr/revoke`. -/
structure RevokeQrRequest where
  resident_id : Nat
  token : String
  reason : Option String
deriving DecidableEq, Repr

/-- Full observable outcome of one `revoke_qr` request. -/
structure RevokeResult where
  response : Except HttpError RevokeQrResponse
  qrAfter : Option QrToken
  credAfter : Option AccessCredential
  audit : Option AuditLogRow
deriving DecidableEq, Repr

/-- Embedding of `revoke_qr` (qr_ops.py lines 72-114).

Lookup + tenant check (404), then ownership check against the issuing
resident (403, raised before any mutation).  For the owner: `revoked_at` is
stamped only if it is still unset; a matched same-tenant credential is marked
revoked; an audit row is always written; the response is success. -/
def revoke_qr (db : List QrToken) (creds : List AccessCredential)
    (tenant_id : Nat) (req : RevokeQrRequest) (now : Int) : RevokeResult :=
  match db.find? (fun q => q.token == req.token) with
  | none => { response := Except.error ⟨404, "QR not found"⟩, qrAfter := none,
              credAfter := none, audit := none }
  | some qr =>
    let cred0 := qr.credential_id.bind (fun cid => creds.find? (fun c => c.id == cid))
    if qr.condominium_id ≠ tenant_id then
      { response := Except.error ⟨404, "QR not found"⟩, qrAfter := some qr,
        credAfter := cred0, audit := none }
    else if qr.resident_id ≠ some req.resident_id then
      { response := Except.error ⟨403, "Cannot revoke QR not issued by you"⟩,
        qrAfter := some qr, credAfter := cred0, audit := none }
    else
      let qr1 := if qr.revoked_at = none then { qr with revoked_at := some now } else qr
      let cred1 := cred0.map (fun c =>
        if c.condominium_id = tenant_id then
          { c with status := "revoked", revoked_at := some now }
        else c)
      { response := Except.ok { revoked := true, token := req.token }
        qrAfter := some qr1
        credAfter := cred1
        audit := some
          { condominium_id := tenant_id
            actor_type := "resident"
            actor_id := some (toString req.resident_id)
            action := "revoke_qr"
            resource_type := "qr_token"
            resource_id := qr.id
            status := "success"
            message := req.reason.getD "QR revoked" } }

/-- The closed set of valid access point strings (`ACCESS_POINTS` in qr.py). -/
def ACCESS_POINTS : List String := ["vehicular_entry", "vehicular_exit", "pedestrian"]

/-- Embedding of `_validate_access_points` (qr.py lines 97-108): reject the
first point outside the closed set with a 400, otherwise de-duplicate
preserving order. -/
def validate_access_points (points : List String) : Except HttpError (List String) :=
  match points.find? (fun p => !(ACCESS_POINTS.contains p)) with
  | some p => Except.error ⟨400, "Invalid access point: " ++ p⟩
  | none => Except.ok (points.foldl (fun out p => if out.contains p then out else out ++ [p]) [])

/-- Embedding of `_random_digits` (qr.py lines 133-136): a string of `n`
characters drawn from the alphabet "0123456789"; the draws are modelled by
the explicit choice stream `choice` (index into the alphabet, mod 10). -/
def random_digits (choice : Nat → Nat) (n : Nat) : String :=
  String.mk ((List.range n).map (fun j => Nat.digitChar (choice j % 10)))

/-- Embedding of the provisioning loop of `issue_visit_qr` (qr.py lines
339-375): up to 10 iterations; iteration `i` draws the fresh candidate
`cand i` and calls `create_user_and_card` on both biometric devices with it;
the loop stops at the first candidate both devices accept, else yields
nothing.  `bio1Ok`/`bio2Ok` are the success results of
`create_user_and_card` on each device as a function of the card number. -/
def provision_card (bio1Ok bio2Ok : String → Bool) (cand : Nat → String) : Option String :=
  ((List.range 10).find? (fun i => bio1Ok (cand i) && bio2Ok (cand i))).map cand

/-- Request body of `POST /qr/issue-visit`. -/
structure IssueVisitQrRequest where
  resident_id : Nat
  visitor_name : String
  vehicle_plate : Option String
  valid_from : Option Int
  valid_until : Int
  allowed_access_points : List String
  max_uses : Option Nat
  authorization_type : String
deriving DecidableEq, Repr

/-- The fields of the issue response that the embedding tracks. -/
structure IssueOutcome where
  card_no : String
  token : String
  expires_at : Int
  provisioned : Bool
  provisioned_devices : List String
deriving DecidableEq, Repr

/-- Outcome of one `issue_visit_qr` request: response plus the QrToken row
persisted by the transaction (none when the request failed, since the raise
happens before `session.add(qr)`/commit). -/
structure IssueResult where
  response : Except HttpError IssueOutcome
  qrPersisted : Option QrToken
deriving DecidableEq, Repr

/-- Embedding of `issue_visit_qr` (qr.py lines 264-454), restricted to the
steps the QR lifecycle claims depend on: access-point validation, validity
window check, the 10-attempt provisioning loop over both biometric devices,
the 502 failure when no attempt succeeds, and the persisted QrToken row on
success.  `choice i` is the digit-choice stream of attempt `i`;
`fresh_token` stands for `secrets.token_urlsafe(24)`; `visitor_id`,
`credential_id` and `qr_id` are the generated row ids. -/
def issue_visit_qr (s : AppSettings) (tenant_id : Nat) (req : IssueVisitQrRequest)
    (now : Int) (bio1Ok bio2Ok : String → Bool) (choice : Nat → Nat → Nat)
    (fresh_token : String) (visitor_id credential_id qr_id : Nat) : IssueResult :=
  match validate_access_points req.allowed_access_points with
  | Except.error e => { response := Except.error e, qrPersisted := none }
  | Except.ok allowed =>
    let valid_from := req.valid_from.getD now
    let valid_until := req.valid_until
    if valid_until ≤ valid_from then
      { response := Except.error ⟨400, "valid_until must be after valid_from"⟩
        qrPersisted := none }
    else
      let cand := fun i => random_digits (choice i) s.qr_card_digits
      match provision_card bio1Ok bio2Ok cand with
      | none =>
        { response := Except.error ⟨502, "Failed to provision QR credential into biometric devices"⟩
          qrPersisted := none }
      | some card_no =>
        let qr : QrToken :=
          { id := qr_id
            condominium_id := tenant_id
            resident_id := some req.resident_id
            visitor_id := some visitor_id
            credential_id := some credential_id
            token := fresh_token
            allowed_access_points := allowed
            expires_at := valid_until
            used_at := none
            revoked_at := none
            max_uses := req.max_uses
            use_count := 0
            extra_visitor_name := some req.visitor_name
            extra_card_no := some card_no }
        { response := Except.ok
            { card_no := card_no
              token := fresh_token
              expires_at := valid_until
              provisioned := true
              provisioned_devices := [s.hik_bio1_host, s.hik_bio2_host] }
          qrPersisted := some qr }

/-- The door targets of the fast path (`DoorTarget` Literal in fast_path.py). -/
inductive DoorTarget where
  | vehicular_entry_panel
  | vehicular_exit_panel
  | pedestrian_gate
  | vehicular_entry_biometric
deriving DecidableEq, Repr

/-- XML payload mode of the fast path. -/
inductive XmlMode where
  | strict
  | legacy
  | auto
deriving DecidableEq, Repr

/-- The payload the fast path labels `strict_xml` (fast_path.py lines
144-148): the v2-namespaced RemoteControlDoor body. -/
def fastpath_strict_xml : String :=
  "<RemoteControlDoor version='2.0' xmlns='http://www.isapi.org/ver20/XMLSchema'><cmd>open</cmd></RemoteControlDoor>"

/-- The payload the fast path labels `legacy_xml` (fast_path.py line 149):
the plain RemoteControlDoor body. -/
def fastpath_legacy_xml : String := "<RemoteControlDoor><cmd>open</cmd></RemoteControlDoor>"

/-- Body selection of `_isapi_open_door` (fast_path.py lines 151-156). -/
def bodies_for : XmlMode → List String
  | .strict => [fastpath_strict_xml]
  | .legacy => [fastpath_legacy_xml]
  | .auto => [fastpath_strict_xml, fastpath_legacy_xml]

/-- The full attempt sequence of `_isapi_open_door`: the body list once, and
a second identical pass when `retry_once` is set (the
`for attempt in range(2 if retry_once else 1)` loop). -/
def attempt_bodies (mode : XmlMode) (retry_once : Bool) : List String :=
  if retry_once then bodies_for mode ++ bodies_for mode else bodies_for mode

/-- Walk the attempt sequence: issue the PUTs one by one (the oracle `dev`
maps request index and body to the response status, `none` = network error
or exception) until one returns 200/201/204.  Returns whether any attempt
succeeded and how many HTTP requests were issued. -/
def run_attempts (dev : Nat → String → Option Nat) : Nat → List String → Bool × Nat
  | _, [] => (false, 0)
  | i, body :: rest =>
    match dev i body with
    | some status =>
        if status = 200 ∨ status = 201 ∨ status = 204 then (true, 1)
        else
          let r := run_attempts dev (i + 1) rest
          (r.1, r.2 + 1)
    | none =>
        let r := run_attempts dev (i + 1) rest
        (r.1, r.2 + 1)

/-- Embedding of `_isapi_open_door` (fast_path.py lines 128-186): empty ip
fails without any request; otherwise the attempt sequence runs until the
first success. -/
def isapi_open_door (dev : Nat → String → Option Nat) (ip : String)
    (mode : XmlMode) (retry_once : Bool) : Bool × Nat :=
  if ip = "" then (false, 0)
  else run_attempts dev 0 (attempt_bodies mode retry_once)

/-- The whatsapp-service settings the fast path reads (config.py: the
cooldown defaults to 4 s). -/
structure FastSettings where
  ACCESS_PANEL_IP : String
  PEDESTRIAN_DEVICE_IP : String
  BIOMETRIC_ENTRY_IP : String
  FAST_OPEN_COOLDOWN_SECONDS : Int
deriving DecidableEq, Repr

/-- Per-target device configuration chosen by `execute_fast_open`
(fast_path.py lines 74-99). -/
structure FastTargetCfg where
  ip : String
  door : Nat
  xml_mode : XmlMode
  access_point : AccessPoint
  label : String
deriving DecidableEq, Repr

/-- The target → (ip, door, xml_mode, access_point, label) mapping of
`execute_fast_open`. -/
def target_config (s : FastSettings) : DoorTarget → FastTargetCfg
  | .vehicular_entry_panel =>
      ⟨s.ACCESS_PANEL_IP, 1, XmlMode.strict, AccessPoint.vehicular_entry, "Entrada"⟩
  | .vehicular_exit_panel =>
      ⟨s.ACCESS_PANEL_IP, 2, XmlMode.strict, AccessPoint.vehicular_exit, "Salida"⟩
  | .pedestrian_gate =>
      ⟨s.PEDESTRIAN_DEVICE_IP, 1, XmlMode.auto, AccessPoint.pedestrian, "Peatonal"⟩
  | .vehicular_entry_biometric =>
      ⟨s.BIOMETRIC_ENTRY_IP, 1, XmlMode.auto, AccessPoint.vehicular_entry, "Entrada (biométrico)"⟩

/-- The log context of a non-debounced fast open. -/
structure FastLogCtx where
  access_point : AccessPoint
  device_host : String
  door_id : Nat
  success : Bool
deriving DecidableEq, Repr

/-- Result of `execute_fast_open`: the `(ok, user_message, log_context)`
triple, with the log context split into the debounce flag and the device
context, plus the number of HTTP requests the call issued. -/
structure FastOpenResult where
  ok : Bool
  message : String
  debounced : Bool
  logCtx : Option FastLogCtx
  requests : Nat
deriving DecidableEq, Repr

/-- The debounce test of `execute_fast_open` (fast_path.py line 69):
`if last and (now - last) < cooldown_s` — note the Python truthiness test on
`last`, under which a stored timestamp of exactly 0 counts as absent. -/
def within_cooldown (last? : Option Int) (now cooldown : Int) : Bool :=
  match last? with
  | some last => last != 0 && decide (now - last < cooldown)
  | none => false

/-- Embedding of `execute_fast_open` (fast_path.py lines 60-125).  The
debounce map `_last_open_ts` is threaded explicitly as `st`.  Within the
cooldown window the call returns success with the `debounced` context and
issues no request; otherwise the timestamp is recorded FIRST, then the
device sequence runs (`retry_once=True` as in the source). -/
def execute_fast_open (s : FastSettings) (st : DoorTarget → Option Int)
    (target : DoorTarget) (now : Int) (dev : Nat → String → Option Nat) :
    FastOpenResult × (DoorTarget → Option Int) :=
  if within_cooldown (st target) now s.FAST_OPEN_COOLDOWN_SECONDS then
    ({ ok := true, message := "Listo. Ya se estaba abriendo.", debounced := true,
       logCtx := none, requests := 0 }, st)
  else
    let st' := fun t => if t = target then some now else st t
    let cfg := target_config s target
    let r := isapi_open_door dev cfg.ip cfg.xml_mode true
    ({ ok := r.1
       message := if r.1 then "Listo. " ++ cfg.label ++ " abierto."
                  else "No se pudo abrir " ++ cfg.label
       debounced := false
       logCtx := some ⟨cfg.access_point, cfg.ip, cfg.door, r.1⟩
       requests := r.2 }, st')

/-- The voice-session state read by the barge-in handler
(call_session.py): the playout-loop flag, the playout queue (elements
abstracted to chunk ids), the AI-speaking flag, and the time of the last
`response.audio.delta` in milliseconds. -/
structure VoiceState where
  playback_active : Bool
  output_audio_queue : List Nat
  ai_speaking : Bool
  last_ai_audio_time : Int
deriving DecidableEq, Repr

/-- Outcome of the `input_audio_buffer.speech_started` branch: the state
afterwards and whether `_clear_output_queue` ran. -/
structure BargeInResult where
  state : VoiceState
  cleared : Bool
deriving DecidableEq, Repr

/-- Embedding of the `input_audio_buffer.speech_started` branch of
`CallSession._handle_openai_event` (call_session.py lines 366-380): ignore
the event while the playout loop is playing or the playout queue is
non-empty; also ignore while the AI is speaking or the last model audio is
younger than the 500 ms grace interval (`0.5` s in the source, modelled in
milliseconds); otherwise flush the queue and drop the speaking flag. -/
def handle_speech_started (st : VoiceState) (now : Int) : BargeInResult :=
  if st.playback_active = true ∨ st.output_audio_queue ≠ [] then
    { state := st, cleared := false }
  else if st.ai_speaking = true ∨ now - st.last_ai_audio_time < 500 then
    { state := st, cleared := false }
  else
    { state := { st with output_audio_queue := [], ai_speaking := false }, cleared := true }

/-- Shorthand for the credential row matched by a token. -/
def credOf (creds : List AccessCredential) (qr : QrToken) : Option AccessCredential :=
  qr.credential_id.bind (fun cid => creds.find? (fun c => c.id == cid))

/-- Fixture settings for concrete witnesses. -/
def wSettings : AppSettings := ⟨"panel-host", "ped-host", "bio1-host", "bio2-host", 3⟩

/-- Fixture QR token: fresh, single-use, valid until time 1000, tenant 7. -/
def wToken : QrToken :=
  { id := 1, condominium_id := 7, resident_id := some 3, visitor_id := some 4,
    credential_id := some 9, token := "tok", allowed_access_points := ["vehicular_entry"],
    expires_at := 1000, used_at := none, revoked_at := none, max_uses := some 1,
    use_count := 0, extra_visitor_name := some "Ana", extra_card_no := none }

/-- Fixture credential row linked to `wToken`. -/
def wCred : AccessCredential :=
  { id := 9, condominium_id := 7, status := "active", used_at := none,
    revoked_at := none, max_uses := some 1, use_count := 0 }

/-- Fixture consume request matching `wToken`. -/
def wReq : ConsumeQrRequest := ⟨"tok", AccessPoint.vehicular_entry, Direction.entry⟩

/-- Panel that accepts the plain body over httpx. -/
def wPanelOk : PanelBehavior := ⟨fun _ _ => some 200, fun _ _ => some "200"⟩

/-- Panel that rejects every request. -/
def wPanelFail : PanelBehavior := ⟨fun _ _ => some 400, fun _ _ => some "403"⟩

/-- Panel that accepts only the v2-namespace payload (the string the fast
path names `strict_xml`), rejecting the plain body both over httpx and over
curl. -/
def cexPanelV2Only : PanelBehavior :=
  ⟨fun _ b => if b == fastpath_strict_xml then some 200 else some 400,
   fun _ _ => some "400"⟩

/-- Fast-path settings fixture (default 4 s cooldown). -/
def wFastSettings : FastSettings := ⟨"1.2.3.4", "5.6.7.8", "9.9.9.9", 4⟩

/-- Fast-path device oracle that rejects the first request and accepts the
second. -/
def wDevSecond : Nat → String → Option Nat := fun i _ => if i == 0 then some 500 else some 200

/-- Fast-path device oracle that fails every request. -/
def wDevDown : Nat → String → Option Nat := fun _ _ => none

/-- Fast-path device oracle that accepts every request. -/
def wDevUp : Nat → String → Option Nat := fun _ _ => some 200

lemma consume_qr_find_none (s : AppSettings) (db : List QrToken)
    (creds : List AccessCredential) (tenant_id : Nat) (req : ConsumeQrRequest)
    (now : Int) (dev : PanelBehavior)
    (hfind : db.find? (fun q => q.token == req.token) = none) :
    consume_qr s db creds tenant_id req now dev =
      consumeErr ⟨404, "QR not found"⟩ db none none := by
  simp only [consume_qr, hfind]

lemma consume_qr_wrong_tenant (s : AppSettings) (db : List QrToken)
    (creds : List AccessCredential) (tenant_id : Nat) (req : ConsumeQrRequest)
    (now : Int) (dev : PanelBehavior) (qr : QrToken)
    (hfind : db.find? (fun q => q.token == req.token) = some qr)
    (hten : qr.condominium_id ≠ tenant_id) :
    consume_qr s db creds tenant_id req now dev =
      consumeErr ⟨404, "QR not found"⟩ db (some qr) (credOf creds qr) := by
  simp only [consume_qr, hfind]
  rw [if_pos hten]
  rfl

lemma consume_qr_revoked (s : AppSettings) (db : List QrToken)
    (creds : List AccessCredential) (tenant_id : Nat) (req : ConsumeQrRequest)
    (now : Int) (dev : PanelBehavior) (qr : QrToken)
    (hfind : db.find? (fun q => q.token == req.token) = some qr)
    (hten : qr.condominium_id = tenant_id)
    (hrev : qr.revoked_at ≠ none) :
    consume_qr s db creds tenant_id req now dev =
      consumeErr ⟨410, "QR revoked"⟩ db (some qr) (credOf creds qr) := by
  simp only [consume_qr, hfind]
  rw [if_neg (not_not_intro hten), if_pos hrev]
  rfl

lemma consume_qr_expired (s : AppSettings) (db : List QrToken)
    (creds : List AccessCredential) (tenant_id : Nat) (req : ConsumeQrRequest)
    (now : Int) (dev : PanelBehavior) (qr : QrToken)
    (hfind : db.find? (fun q => q.token == req.token) = some qr)
    (hten : qr.condominium_id = tenant_id)
    (hrev : qr.revoked_at = none)
    (hexp : qr.expires_at ≤ now) :
    consume_qr s db creds tenant_id req now dev =
      consumeErr ⟨410, "QR expired"⟩ db (some qr) (credOf creds qr) := by
  simp only [consume_qr, hfind]
  rw [if_neg (not_not_intro hten), if_neg (not_not_intro hrev), if_pos hexp]
  rfl

lemma consume_qr_forbidden (s : AppSettings) (db : List QrToken)
    (creds : List AccessCredential) (tenant_id : Nat) (req : ConsumeQrRequest)
    (now : Int) (dev : PanelBehavior) (qr : QrToken)
    (hfind : db.find? (fun q => q.token == req.token) = some qr)
    (hten : qr.condominium_id = tenant_id)
    (hrev : qr.revoked_at = none)
    (hexp : now < qr.expires_at)
    (hap : qr.allowed_access_points.contains req.access_point.str = false) :
    consume_qr s db creds tenant_id req now dev =
      consumeErr ⟨403, "Access point not allowed"⟩ db (some qr) (credOf creds qr) := by
  simp only [consume_qr, hfind]
  rw [if_neg (not_not_intro hten), if_neg (not_not_intro hrev),
    if_neg (not_le.mpr hexp), if_pos (by simpa using hap)]
  rfl

lemma consume_qr_used_up (s : AppSettings) (db : List QrToken)
    (creds : List AccessCredential) (tenant_id : Nat) (req : ConsumeQrRequest)
    (now : Int) (dev : PanelBehavior) (qr : QrToken)
    (hfind : db.find? (fun q => q.token == req.token) = some qr)
    (hten : qr.condominium_id = tenant_id)
    (hrev : qr.revoked_at = none)
    (hexp : now < qr.expires_at)
    (hap : qr.allowed_access_points.contains req.access_point.str = true)
    (hml : usage_limit_reached qr.max_uses qr.use_count = true) :
    consume_qr s db creds tenant_id req now dev =
      consumeErr ⟨410, "QR usage limit reached"⟩ db (some qr) (credOf creds qr) := by
  simp only [consume_qr, hfind]
  rw [if_neg (not_not_intro hten), if_neg (not_not_intro hrev),
    if_neg (not_le.mpr hexp), if_neg (by simpa using hap), if_pos hml]
  rfl

lemma consume_qr_success (s : AppSettings) (db : List QrToken)
    (creds : List AccessCredential) (tenant_id : Nat) (req : ConsumeQrRequest)
    (now : Int) (dev : PanelBehavior) (qr : QrToken)
    (hfind : db.find? (fun q => q.token == req.token) = some qr)
    (hten : qr.condominium_id = tenant_id)
    (hrev : qr.revoked_at = none)
    (hexp : now < qr.expires_at)
    (hap : qr.allowed_access_points.contains req.access_point.str = true)
    (hml : usage_limit_reached qr.max_uses qr.use_count = false) :
    consume_qr s db creds tenant_id req now dev =
      { response := Except.ok
          { accepted := true
            token := req.token
            direction := req.direction
            access_point := req.access_point
            use_count := qr.use_count + 1
            max_uses := qr.max_uses
            gate_opened := (open_gate dev (consume_door_host s req.access_point).1).1.success
            gate_method :=
              if (open_gate dev (consume_door_host s req.access_point).1).1.success then
                (open_gate dev (consume_door_host s req.access_point).1).1.method
              else none }
        dbAfter := db.map (fun q =>
          if q.id == qr.id then { qr with use_count := qr.use_count + 1, used_at := some now }
          else q)
        qrAfter := some { qr with use_count := qr.use_count + 1, used_at := some now }
        credAfter := (credOf creds qr).map (fun c =>
          if c.condominium_id = tenant_id then
            if usage_limit_reached c.max_uses (c.use_count + 1) then
              { c with use_count := c.use_count + 1, used_at := some now, status := "used" }
            else { c with use_count := c.use_count + 1, used_at := some now }
          else c)
        gateCall := some ((consume_door_host s req.access_point).2,
                          (consume_door_host s req.access_point).1)
        accessLog := some
          { condominium_id := tenant_id
            event_type := req.direction.str
            access_point := req.access_point
            direction := req.direction.str
            resident_id := qr.resident_id
            visitor_id := qr.visitor_id
            visitor_name := qr.extra_visitor_name
            authorization_method := "qr"
            gate_opened := (open_gate dev (consume_door_host s req.access_point).1).1.success
            gate_method :=
              if (open_gate dev (consume_door_host s req.access_point).1).1.success then
                (open_gate dev (consume_door_host s req.access_point).1).1.method
              else none
            device_host := (consume_door_host s req.access_point).2
            door_id := (consume_door_host s req.access_point).1 }
        audit := some
          { condominium_id := tenant_id
            actor_type := "system"
            actor_id := none
            action := "consume_qr"
            resource_type := "qr_token"
            resource_id := qr.id
            status :=
              if (open_gate dev (consume_door_host s req.access_point).1).1.success then
                "success"
              else "failure"
            message := "consumed at " ++ req.access_point.str ++ " (" ++ req.direction.str
              ++ "); opened="
              ++ (if (open_gate dev (consume_door_host s req.access_point).1).1.success then
                    "True"
                  else "False") } } := by
  simp only [consume_qr, hfind]
  rw [if_neg (not_not_intro hten), if_neg (not_not_intro hrev),
    if_neg (not_le.mpr hexp), if_neg (by simpa using hap), if_neg (by simp [hml])]
  rfl

lemma revoke_qr_not_owner (db : List QrToken) (creds : List AccessCredential)
    (tenant_id : Nat) (req : RevokeQrRequest) (now : Int) (qr : QrToken)
    (hfind : db.find? (fun q => q.token == req.token) = some qr)
    (hten : qr.condominium_id = tenant_id)
    (hown : qr.resident_id ≠ some req.resident_id) :
    revoke_qr db creds tenant_id req now =
      { response := Except.error ⟨403, "Cannot revoke QR not issued by you"⟩
        qrAfter := some qr
        credAfter := credOf creds qr
        audit := none } := by
  simp only [revoke_qr, hfind]
  rw [if_neg (not_not_intro hten), if_pos hown]
  rfl

lemma revoke_qr_owner (db : List QrToken) (creds : List AccessCredential)
    (tenant_id : Nat) (req : RevokeQrRequest) (now : Int) (qr : QrToken)
    (hfind : db.find? (fun q => q.token == req.token) = some qr)
    (hten : qr.condominium_id = tenant_id)
    (hown : qr.resident_id = some req.resident_id) :
    revoke_qr db creds tenant_id req now =
      { response := Except.ok { revoked := true, token := req.token }
        qrAfter := some (if qr.revoked_at = none then { qr with revoked_at := some now } else qr)
        credAfter := (credOf creds qr).map (fun c =>
          if c.condominium_id = tenant_id then
            { c with status := "revoked", revoked_at := some now }
          else c)
        audit := some
          { condominium_id := tenant_id
            actor_type := "resident"
            actor_id := some (toString req.resident_id)
            action := "revoke_qr"
            resource_type := "qr_token"
            resource_id := qr.id
            status := "success"
            message := req.reason.getD "QR revoked" } } := by
  simp only [revoke_qr, hfind]
  rw [if_neg (not_not_intro hten), if_neg (not_not_intro hown)]
  rfl

lemma find?_update_first {db : List QrToken} {qr qr1 : QrToken} {p : QrToken → Bool}
    (hfind : db.find? p = some qr)
    (hid : ∀ q ∈ db, q.id = qr.id → q = qr)
    (hp1 : p qr1 = true) :
    (db.map (fun q => if q.id == qr.id then qr1 else q)).find? p = some qr1 := by
  induction db with
  | nil => simp at hfind
  | cons a l ih =>
    by_cases ha : p a
    · rw [List.find?_cons_of_pos _ ha] at hfind
      injection hfind with h
      subst h
      simp only [List.map_cons]
      have hhead : (if a.id == a.id then qr1 else a) = qr1 := by simp
      rw [hhead, List.find?_cons_of_pos _ hp1]
    · rw [List.find?_cons_of_neg _ ha] at hfind
      have haid : a.id ≠ qr.id := by
        intro h
        have heq := hid a (List.mem_cons_self a l) h
        subst heq
        exact ha (List.find?_some hfind)
      simp only [List.map_cons]
      have hhead : (if a.id == qr.id then qr1 else a) = a := by simp [haid]
      rw [hhead, List.find?_cons_of_neg _ ha]
      exact ih hfind (fun q hq h => hid q (List.mem_cons_of_mem a hq) h)

lemma run_attempts_le_length (dev : Nat → String → Option Nat) :
    ∀ (i : Nat) (l : List String), (run_attempts dev i l).2 ≤ l.length := by
  intro i l
  induction l generalizing i with
  | nil => simp [run_attempts]
  | cons b rest ih =>
    simp only [run_attempts]
    cases dev i b with
    | none =>
      simpa using Nat.succ_le_succ (ih (i + 1))
    | some status =>
      dsimp only
      by_cases h : status = 200 ∨ status = 201 ∨ status = 204
      · rw [if_pos h]; simp
      · rw [if_neg h]
        simpa using Nat.succ_le_succ (ih (i + 1))

lemma run_attempts_head_success (dev : Nat → String → Option Nat)
    (i : Nat) (b : String) (rest : List String) (c : Nat)
    (h : dev i b = some c) (hc : c = 200 ∨ c = 201 ∨ c = 204) :
    run_attempts dev i (b :: rest) = (true, 1) := by
  simp only [run_attempts, h]
  rw [if_pos hc]

lemma random_digits_spec (choice : Nat → Nat) (n : Nat) :
    (random_digits choice n).length = n ∧
    ((random_digits choice n).data.all Char.isDigit) = true := by
  have hdig : ∀ m, m < 10 → (Nat.digitChar m).isDigit = true := by decide
  constructor
  · simp [random_digits, String.length]
  · simp only [random_digits]
    rw [List.all_eq_true]
    intro c hc
    obtain ⟨j, _, rfl⟩ := List.mem_map.mp hc
    exact hdig _ (Nat.mod_lt _ (by norm_num))

/-- C5: a `speech_started` event received while the playout loop is Playing
or the playout queue is non-empty leaves the queue (and the whole session
state) untouched; the queue is cleared only when playout is idle, the queue
is already empty, and at least the 500 ms grace interval has passed since
the last model audio delta. -/
theorem speech_started_flush_policy (st : VoiceState) (now : Int) :
    (st.playback_active = true ∨ st.output_audio_queue ≠ [] →
      handle_speech_started st now = { state := st, cleared := false }) ∧
    ((handle_speech_started st now).cleared = true →
      st.playback_active = false ∧ st.output_audio_queue = [] ∧
      500 ≤ now - st.last_ai_audio_time) ∧
    ((handle_speech_started st now).cleared = true →
      (handle_speech_started st now).state.output_audio_queue = []) := by
  refine ⟨?_, ?_, ?_⟩
  · intro h
    unfold handle_speech_started
    rw [if_pos h]
  · intro h
    unfold handle_speech_started at h
    by_cases h1 : st.playback_active = true ∨ st.output_audio_queue ≠ []
    · rw [if_pos h1] at h
      simp at h
    · rw [if_neg h1] at h
      by_cases h2 : st.ai_speaking = true ∨ now - st.last_ai_audio_time < 500
      · rw [if_pos h2] at h
        simp at h
      · push_neg at h1 h2
        exact ⟨by simpa using h1.1, h1.2, h2.2⟩
  · intro h
    unfold handle_speech_started at h ⊢
    by_cases h1 : st.playback_active = true ∨ st.output_audio_queue ≠ []
    · rw [if_pos h1] at h
      simp at h
    · rw [if_neg h1] at h ⊢
      by_cases h2 : st.ai_speaking = true ∨ now - st.last_ai_audio_time < 500
      · rw [if_pos h2] at h
        simp at h
      · rw [if_neg h2]

/-- C5 witness: a concrete Playing state with a queued chunk is untouched by
the event, and a concrete idle state past the grace interval is cleared. -/
theorem speech_started_flush_policy_witness :
    handle_speech_started ⟨true, [42], true, 900⟩ 1000 = ⟨⟨true, [42], true, 900⟩, false⟩ ∧
    (handle_speech_started ⟨false, [], false, 100⟩ 1000).cleared = true ∧
    ((handle_speech_started ⟨false, [], false, 100⟩ 1000).cleared = true →
      (500 : Int) ≤ 1000 - 100) := by
  refine ⟨(speech_started_flush_policy ⟨true, [42], true, 900⟩ 1000).1 (Or.inl rfl), by decide,
    fun h => ?_⟩
  have := (speech_started_flush_policy ⟨false, [], false, 100⟩ 1000).2.1 h
  exact this.2.2

/-- C9 counterexample: the fast path's `strict` XML mode does NOT send the
plain bytes `<RemoteControlDoor><cmd>open</cmd></RemoteControlDoor>`; the
payload it labels `strict_xml` is the v2-namespaced body, and the plain
bytes are the `legacy` payload. -/
theorem fast_path_strict_payload_cex :
    bodies_for XmlMode.strict = [fastpath_strict_xml] ∧
    fastpath_strict_xml ≠ "<RemoteControlDoor><cmd>open</cmd></RemoteControlDoor>" ∧
    bodies_for XmlMode.legacy = ["<RemoteControlDoor><cmd>open</cmd></RemoteControlDoor>"] := by
  exact ⟨rfl, by decide, rfl⟩

/-- C9 (amended): `strict` mode sends exactly the v2-namespaced payload,
`legacy` mode sends exactly the plain bytes
`<RemoteControlDoor><cmd>open</cmd></RemoteControlDoor>` with no prolog or
whitespace, and `auto` mode with the single retry pass tries strict then
legacy once each and then repeats the whole sequence exactly once, so at
most 4 requests are issued. -/
theorem fast_path_xml_modes :
    bodies_for XmlMode.strict =
      ["<RemoteControlDoor version='2.0' xmlns='http://www.isapi.org/ver20/XMLSchema'><cmd>open</cmd></RemoteControlDoor>"] ∧
    bodies_for XmlMode.legacy = ["<RemoteControlDoor><cmd>open</cmd></RemoteControlDoor>"] ∧
    attempt_bodies XmlMode.auto true =
      [fastpath_strict_xml, fastpath_legacy_xml, fastpath_strict_xml, fastpath_legacy_xml] ∧
    (∀ (dev : Nat → String → Option Nat) (ip : String),
      (isapi_open_door dev ip XmlMode.auto true).2 ≤ 4) := by
  refine ⟨rfl, rfl, rfl, ?_⟩
  intro dev ip
  unfold isapi_open_door
  by_cases hip : ip = ""
  · rw [if_pos hip]
    simp
  · rw [if_neg hip]
    simpa using run_attempts_le_length dev 0 (attempt_bodies XmlMode.auto true)

/-- C4 counterexample: a panel that rejects the plain strict body (over
httpx and over curl) but would accept the v2-namespace payload.  The claim
expects `open_gate` to succeed with method tag `access_control_v2`; instead
the code never attempts the v2 variant (nor io_trigger / alarm_output): it
falls back directly to curl_digest with the same plain body and the whole
call fails. -/
theorem open_gate_fallback_cex :
    cexPanelV2Only.put 1 fastpath_strict_xml = some 200 ∧
    (open_gate cexPanelV2Only 1).1.success = false ∧
    (open_gate cexPanelV2Only 1).1.method ≠ some "access_control_v2" ∧
    (open_gate cexPanelV2Only 1).2 = [OpenMethod.access_control, OpenMethod.curl_digest] := by
  decide

/-- C4 (amended): `open_gate` attempts the strict access-control payload
first and, on its failure, the curl-digest fallback with the same payload,
each at most once, first success wins, and the method tag matches the
first-successful variant; the `access_control_v2`, `io_trigger` and
`alarm_output` variants are never attempted. -/
theorem open_gate_fallback_order (dev : PanelBehavior) (door_id : Nat) :
    (OpenMethod.access_control_v2 ∉ (open_gate dev door_id).2 ∧
     OpenMethod.io_trigger ∉ (open_gate dev door_id).2 ∧
     OpenMethod.alarm_output ∉ (open_gate dev door_id).2) ∧
    (hikRequestOk (dev.put door_id hik_open_xml_body) = true →
      open_gate dev door_id =
        ({ success := true, method := some "access_control" }, [OpenMethod.access_control])) ∧
    (hikRequestOk (dev.put door_id hik_open_xml_body) = false →
      (open_gate dev door_id).2 = [OpenMethod.access_control, OpenMethod.curl_digest] ∧
      ((open_gate dev door_id).1.success = true →
        (open_gate dev door_id).1.method = some "curl_digest" ∧
        ∃ code, dev.curl door_id hik_open_xml_body = some code ∧
          (code = "200" ∨ code = "204"))) := by
  cases hput : hikRequestOk (dev.put door_id hik_open_xml_body) with
  | true =>
    have hg : open_gate dev door_id =
        ({ success := true, method := some "access_control" }, [OpenMethod.access_control]) := by
      unfold open_gate
      rw [if_pos hput]
    refine ⟨?_, fun _ => hg, fun hfalse => by simp at hfalse⟩
    rw [hg]
    refine ⟨by decide, by decide, by decide⟩
  | false =>
    have hneg : ¬ hikRequestOk (dev.put door_id hik_open_xml_body) = true := by
      simp [hput]
    cases hcurl : dev.curl door_id hik_open_xml_body with
    | none =>
      have hg : open_gate dev door_id =
          ({ success := false, method := none },
           [OpenMethod.access_control, OpenMethod.curl_digest]) := by
        unfold open_gate
        rw [if_neg hneg, hcurl]
      refine ⟨?_, fun htrue => by simp at htrue, fun _ => ?_⟩
      · rw [hg]
        refine ⟨by decide, by decide, by decide⟩
      · rw [hg]
        exact ⟨rfl, fun hs => by simp at hs⟩
    | some code =>
      cases hcode : (code == "200" || code == "204") with
      | true =>
        have hg : open_gate dev door_id =
            ({ success := true, method := some "curl_digest" },
             [OpenMethod.access_control, OpenMethod.curl_digest]) := by
          unfold open_gate
          rw [if_neg hneg, hcurl]
          dsimp only
          rw [if_pos hcode]
        refine ⟨?_, fun htrue => by simp at htrue, fun _ => ?_⟩
        · rw [hg]
          refine ⟨by decide, by decide, by decide⟩
        · rw [hg]
          refine ⟨rfl, fun _ => ⟨rfl, code, rfl, ?_⟩⟩
          have hc := hcode
          simp only [Bool.or_eq_true, beq_iff_eq] at hc
          exact hc
      | false =>
        have hg : open_gate dev door_id =
            ({ success := false, method := none },
             [OpenMethod.access_control, OpenMethod.curl_digest]) := by
          unfold open_gate
          rw [if_neg hneg, hcurl]
          dsimp only
          rw [if_neg (by simp [hcode])]
        refine ⟨?_, fun htrue => by simp at htrue, fun _ => ?_⟩
        · rw [hg]
          refine ⟨by decide, by decide, by decide⟩
        · rw [hg]
          exact ⟨rfl, fun hs => by simp at hs⟩

/-- C4 witness: with a panel that accepts the strict body, `open_gate`
returns method `access_control` having attempted only that variant; with a
panel that also rejects it over curl, only the two variants of the code are
ever attempted. -/
theorem open_gate_fallback_order_witness :
    open_gate wPanelOk 1 =
      ({ success := true, method := some "access_control" }, [OpenMethod.access_control]) ∧
    (open_gate wPanelFail 1).2 = [OpenMethod.access_control, OpenMethod.curl_digest] ∧
    OpenMethod.access_control_v2 ∉ (open_gate wPanelFail 1).2 := by
  refine ⟨(open_gate_fallback_order wPanelOk 1).2.1 (by decide),
    ((open_gate_fallback_order wPanelFail 1).2.2 (by decide)).1,
    (open_gate_fallback_order wPanelFail 1).1.1⟩

/-- C1: for every QR consume request the five preconditions are checked in
source order — token exists in the asserted tenant (404 not found), not
revoked (410 revoked), not expired i.e. `expires_at > now` (410 expired),
requested access point in the allowed set (403 forbidden), usage limit not
reached (410 used up) — the first failing check short-circuits with its
listed error, and on any failure the token's use_count is not incremented
(database unchanged), no device open-door call is made and no log rows are
appended. -/
theorem consume_qr_checks_order (s : AppSettings) (db : List QrToken)
    (creds : List AccessCredential) (tenant_id : Nat) (req : ConsumeQrRequest)
    (now : Int) (dev : PanelBehavior) :
    (db.find? (fun q => q.token == req.token) = none →
      consume_qr s db creds tenant_id req now dev =
        consumeErr ⟨404, "QR not found"⟩ db none none) ∧
    (∀ qr, db.find? (fun q => q.token == req.token) = some qr →
      qr.condominium_id ≠ tenant_id →
      consume_qr s db creds tenant_id req now dev =
        consumeErr ⟨404, "QR not found"⟩ db (some qr) (credOf creds qr)) ∧
    (∀ qr, db.find? (fun q => q.token == req.token) = some qr →
      qr.condominium_id = tenant_id → qr.revoked_at ≠ none →
      consume_qr s db creds tenant_id req now dev =
        consumeErr ⟨410, "QR revoked"⟩ db (some qr) (credOf creds qr)) ∧
    (∀ qr, db.find? (fun q => q.token == req.token) = some qr →
      qr.condominium_id = tenant_id → qr.revoked_at = none → qr.expires_at ≤ now →
      consume_qr s db creds tenant_id req now dev =
        consumeErr ⟨410, "QR expired"⟩ db (some qr) (credOf creds qr)) ∧
    (∀ qr, db.find? (fun q => q.token == req.token) = some qr →
      qr.condominium_id = tenant_id → qr.revoked_at = none → now < qr.expires_at →
      qr.allowed_access_points.contains req.access_point.str = false →
      consume_qr s db creds tenant_id req now dev =
        consumeErr ⟨403, "Access point not allowed"⟩ db (some qr) (credOf creds qr)) ∧
    (∀ qr, db.find? (fun q => q.token == req.token) = some qr →
      qr.condominium_id = tenant_id → qr.revoked_at = none → now < qr.expires_at →
      qr.allowed_access_points.contains req.access_point.str = true →
      usage_limit_reached qr.max_uses qr.use_count = true →
      consume_qr s db creds tenant_id req now dev =
        consumeErr ⟨410, "QR usage limit reached"⟩ db (some qr) (credOf creds qr)) ∧
    (∀ e, (consume_qr s db creds tenant_id req now dev).response = Except.error e →
      (consume_qr s db creds tenant_id req now dev).dbAfter = db ∧
      (consume_qr s db creds tenant_id req now dev).gateCall = none ∧
      (consume_qr s db creds tenant_id req now dev).accessLog = none ∧
      (consume_qr s db creds tenant_id req now dev).audit = none) := by
  refine ⟨consume_qr_find_none s db creds tenant_id req now dev,
    fun qr hf ht => consume_qr_wrong_tenant s db creds tenant_id req now dev qr hf ht,
    fun qr hf ht hr => consume_qr_revoked s db creds tenant_id req now dev qr hf ht hr,
    fun qr hf ht hr he => consume_qr_expired s db creds tenant_id req now dev qr hf ht hr he,
    fun qr hf ht hr he ha => consume_qr_forbidden s db creds tenant_id req now dev qr hf ht hr he ha,
    fun qr hf ht hr he ha hm => consume_qr_used_up s db creds tenant_id req now dev qr hf ht hr he ha hm,
    ?_⟩
  intro e herr
  rcases hfind : db.find? (fun q => q.token == req.token) with _ | qr
  · rw [consume_qr_find_none s db creds tenant_id req now dev hfind]
    exact ⟨rfl, rfl, rfl, rfl⟩
  · by_cases hten : qr.condominium_id = tenant_id
    · rcases hrev : qr.revoked_at with _ | t
      · by_cases hexp : qr.expires_at ≤ now
        · rw [consume_qr_expired s db creds tenant_id req now dev qr hfind hten hrev hexp]
          exact ⟨rfl, rfl, rfl, rfl⟩
        · have hexp' : now < qr.expires_at := not_le.mp hexp
          cases hap : qr.allowed_access_points.contains req.access_point.str with
          | false =>
            rw [consume_qr_forbidden s db creds tenant_id req now dev qr hfind hten hrev hexp' hap]
            exact ⟨rfl, rfl, rfl, rfl⟩
          | true =>
            cases hml : usage_limit_reached qr.max_uses qr.use_count with
            | true =>
              rw [consume_qr_used_up s db creds tenant_id req now dev qr hfind hten hrev hexp' hap hml]
              exact ⟨rfl, rfl, rfl, rfl⟩
            | false =>
              rw [consume_qr_success s db creds tenant_id req now dev qr hfind hten hrev hexp' hap hml] at herr
              simp at herr
      · rw [consume_qr_revoked s db creds tenant_id req now dev qr hfind hten (by simp [hrev])]
        exact ⟨rfl, rfl, rfl, rfl⟩
    · rw [consume_qr_wrong_tenant s db creds tenant_id req now dev qr hfind hten]
      exact ⟨rfl, rfl, rfl, rfl⟩

/-- C1 witness: a concrete revoked token in tenant 7 yields the 410 revoked
error with no device call, no increment and no logs. -/
theorem consume_qr_checks_order_witness :
    consume_qr wSettings [{ wToken with revoked_at := some 5 }] [wCred] 7 wReq 100 wPanelOk =
      consumeErr ⟨410, "QR revoked"⟩ [{ wToken with revoked_at := some 5 }]
        (some { wToken with revoked_at := some 5 })
        (credOf [wCred] { wToken with revoked_at := some 5 }) := by
  exact (consume_qr_checks_order wSettings [{ wToken with revoked_at := some 5 }] [wCred]
    7 wReq 100 wPanelOk).2.2.1 _ (by decide) (by decide) (by decide)

/-- C2: QR tokens have at-most-N-use semantics.  Under the passing
preconditions (token found in the tenant, not revoked, not expired, access
point allowed): when the bounded usage limit is already reached the consume
is rejected used-up with no increment; otherwise the consume succeeds,
increments use_count by exactly one and stamps used_at; and for a token
with max_uses=1 and use_count=0, the first consume is accepted with
use_count 1 and a second consume of the same token is rejected Gone
used-up. -/
theorem consume_qr_at_most_n_uses (s : AppSettings) (db : List QrToken)
    (creds : List AccessCredential) (tenant_id : Nat) (req : ConsumeQrRequest)
    (now : Int) (dev : PanelBehavior) (qr : QrToken)
    (hfind : db.find? (fun q => q.token == req.token) = some qr)
    (hten : qr.condominium_id = tenant_id)
    (hrev : qr.revoked_at = none)
    (hexp : now < qr.expires_at)
    (hap : qr.allowed_access_points.contains req.access_point.str = true) :
    (usage_limit_reached qr.max_uses qr.use_count = true →
      consume_qr s db creds tenant_id req now dev =
        consumeErr ⟨410, "QR usage limit reached"⟩ db (some qr) (credOf creds qr)) ∧
    (usage_limit_reached qr.max_uses qr.use_count = false →
      (consume_qr s db creds tenant_id req now dev).qrAfter =
        some { qr with use_count := qr.use_count + 1, used_at := some now } ∧
      ∃ resp, (consume_qr s db creds tenant_id req now dev).response = Except.ok resp ∧
        resp.accepted = true ∧ resp.use_count = qr.use_count + 1) ∧
    (qr.max_uses = some 1 → qr.use_count = 0 →
      (∀ q ∈ db, q.id = qr.id → q = qr) →
      ∀ (now2 : Int) (dev2 : PanelBehavior), now2 < qr.expires_at →
        (∃ resp, (consume_qr s db creds tenant_id req now dev).response = Except.ok resp ∧
          resp.accepted = true ∧ resp.use_count = 1) ∧
        consume_qr s (consume_qr s db creds tenant_id req now dev).dbAfter creds
            tenant_id req now2 dev2 =
          consumeErr ⟨410, "QR usage limit reached"⟩
            (consume_qr s db creds tenant_id req now dev).dbAfter
            (some { qr with use_count := qr.use_count + 1, used_at := some now })
            (credOf creds { qr with use_count := qr.use_count + 1, used_at := some now })) := by
  refine ⟨consume_qr_used_up s db creds tenant_id req now dev qr hfind hten hrev hexp hap, ?_, ?_⟩
  · intro hml
    rw [consume_qr_success s db creds tenant_id req now dev qr hfind hten hrev hexp hap hml]
    exact ⟨rfl, _, rfl, rfl, rfl⟩
  · intro hmax huse hid now2 dev2 hexp2
    have hml : usage_limit_reached qr.max_uses qr.use_count = false := by
      rw [hmax, huse]
      rfl
    have hsucc := consume_qr_success s db creds tenant_id req now dev qr hfind hten hrev hexp hap hml
    have hptrue := List.find?_some hfind
    have hp1 : (fun q => q.token == req.token)
        { qr with use_count := qr.use_count + 1, used_at := some now } = true := hptrue
    have hfind2 : (consume_qr s db creds tenant_id req now dev).dbAfter.find?
        (fun q => q.token == req.token) =
        some { qr with use_count := qr.use_count + 1, used_at := some now } := by
      rw [hsucc]
      exact find?_update_first hfind hid hp1
    constructor
    · rw [hsucc]
      refine ⟨_, rfl, rfl, ?_⟩
      simp [huse]
    · have hml2 : usage_limit_reached
          ({ qr with use_count := qr.use_count + 1, used_at := some now } : QrToken).max_uses
          ({ qr with use_count := qr.use_count + 1, used_at := some now } : QrToken).use_count = true := by
        show usage_limit_reached qr.max_uses (qr.use_count + 1) = true
        rw [hmax, huse]
        rfl
      exact consume_qr_used_up s (consume_qr s db creds tenant_id req now dev).dbAfter creds
        tenant_id req now2 dev2 _ hfind2 hten hrev hexp2 hap hml2

/-- C2 witness: consuming the concrete single-use fixture token twice —
first consume accepted with use_count 1, second consume rejected 410
used-up. -/
theorem consume_qr_at_most_n_uses_witness :
    (∃ resp, (consume_qr wSettings [wToken] [wCred] 7 wReq 100 wPanelOk).response =
        Except.ok resp ∧ resp.accepted = true ∧ resp.use_count = 1) ∧
    consume_qr wSettings (consume_qr wSettings [wToken] [wCred] 7 wReq 100 wPanelOk).dbAfter
        [wCred] 7 wReq 200 wPanelOk =
      consumeErr ⟨410, "QR usage limit reached"⟩
        (consume_qr wSettings [wToken] [wCred] 7 wReq 100 wPanelOk).dbAfter
        (some { wToken with use_count := wToken.use_count + 1, used_at := some 100 })
        (credOf [wCred] { wToken with use_count := wToken.use_count + 1, used_at := some 100 }) := by
  exact (consume_qr_at_most_n_uses wSettings [wToken] [wCred] 7 wReq 100 wPanelOk wToken
    (by decide) (by decide) (by decide) (by decide) (by decide)).2.2 (by decide) (by decide)
    (by decide) 200 wPanelOk (by decide)

/-- C6: when all five consume preconditions hold, the response is
accepted=true regardless of the device outcome; `gate_opened` equals the
device call's success result; the appended AccessLog records whether the
gate opened, and the appended AuditLog has status "success" exactly when
the gate opened (and "failure" otherwise). -/
theorem consume_qr_accepted_regardless_of_gate (s : AppSettings) (db : List QrToken)
    (creds : List AccessCredential) (tenant_id : Nat) (req : ConsumeQrRequest)
    (now : Int) (dev : PanelBehavior) (qr : QrToken)
    (hfind : db.find? (fun q => q.token == req.token) = some qr)
    (hten : qr.condominium_id = tenant_id)
    (hrev : qr.revoked_at = none)
    (hexp : now < qr.expires_at)
    (hap : qr.allowed_access_points.contains req.access_point.str = true)
    (hml : usage_limit_reached qr.max_uses qr.use_count = false) :
    (consume_qr s db creds tenant_id req now dev).response = Except.ok
      { accepted := true
        token := req.token
        direction := req.direction
        access_point := req.access_point
        use_count := qr.use_count + 1
        max_uses := qr.max_uses
        gate_opened := (open_gate dev (consume_door_host s req.access_point).1).1.success
        gate_method :=
          if (open_gate dev (consume_door_host s req.access_point).1).1.success then
            (open_gate dev (consume_door_host s req.access_point).1).1.method
          else none } ∧
    (∃ al, (consume_qr s db creds tenant_id req now dev).accessLog = some al ∧
      al.gate_opened = (open_gate dev (consume_door_host s req.access_point).1).1.success) ∧
    (∃ au, (consume_qr s db creds tenant_id req now dev).audit = some au ∧
      (au.status = "success" ↔
        (open_gate dev (consume_door_host s req.access_point).1).1.success = true) ∧
      (au.status = "success" ∨ au.status = "failure")) := by
  rw [consume_qr_success s db creds tenant_id req now dev qr hfind hten hrev hexp hap hml]
  refine ⟨rfl, ⟨_, rfl, rfl⟩, ⟨_, rfl, ?_, ?_⟩⟩
  · cases hb : (open_gate dev (consume_door_host s req.access_point).1).1.success with
    | true => simp [hb]
    | false => simp [hb]
  · cases hb : (open_gate dev (consume_door_host s req.access_point).1).1.success with
    | true => simp [hb]
    | false => simp [hb]

/-- C6 witness: the fixture token consumed against a failing panel is still
accepted, with gate_opened=false and an audit row of status "failure". -/
theorem consume_qr_accepted_regardless_of_gate_witness :
    (consume_qr wSettings [wToken] [wCred] 7 wReq 100 wPanelFail).response = Except.ok
      { accepted := true
        token := wReq.token
        direction := wReq.direction
        access_point := wReq.access_point
        use_count := wToken.use_count + 1
        max_uses := wToken.max_uses
        gate_opened := (open_gate wPanelFail (consume_door_host wSettings wReq.access_point).1).1.success
        gate_method :=
          if (open_gate wPanelFail (consume_door_host wSettings wReq.access_point).1).1.success then
            (open_gate wPanelFail (consume_door_host wSettings wReq.access_point).1).1.method
          else none } ∧
    (open_gate wPanelFail (consume_door_host wSettings wReq.access_point).1).1.success = false := by
  exact ⟨(consume_qr_accepted_regardless_of_gate wSettings [wToken] [wCred] 7 wReq 100
    wPanelFail wToken (by decide) (by decide) (by decide) (by decide) (by decide) (by decide)).1,
    by decide⟩

/-- C7: revoking a QR token requires the caller to be the issuing resident,
else 403 with revoked_at untouched; for the owner, revoke succeeds, stamps
revoked_at and marks a matched same-tenant credential revoked; revoking an
already-revoked token returns success without changing the token's
previously stamped revoked_at. -/
theorem revoke_qr_owner_only_and_idempotent (db : List QrToken)
    (creds : List AccessCredential) (tenant_id : Nat) (req : RevokeQrRequest)
    (now : Int) (qr : QrToken)
    (hfind : db.find? (fun q => q.token == req.token) = some qr)
    (hten : qr.condominium_id = tenant_id) :
    (qr.resident_id ≠ some req.resident_id →
      revoke_qr db creds tenant_id req now =
        { response := Except.error ⟨403, "Cannot revoke QR not issued by you"⟩
          qrAfter := some qr
          credAfter := credOf creds qr
          audit := none }) ∧
    (qr.resident_id = some req.resident_id → qr.revoked_at = none →
      (revoke_qr db creds tenant_id req now).response =
        Except.ok { revoked := true, token := req.token } ∧
      (revoke_qr db creds tenant_id req now).qrAfter =
        some { qr with revoked_at := some now } ∧
      (∀ c, credOf creds qr = some c → c.condominium_id = tenant_id →
        (revoke_qr db creds tenant_id req now).credAfter =
          some { c with status := "revoked", revoked_at := some now })) ∧
    (∀ t, qr.resident_id = some req.resident_id → qr.revoked_at = some t →
      (revoke_qr db creds tenant_id req now).response =
        Except.ok { revoked := true, token := req.token } ∧
      (revoke_qr db creds tenant_id req now).qrAfter = some qr) := by
  refine ⟨revoke_qr_not_owner db creds tenant_id req now qr hfind hten, ?_, ?_⟩
  · intro hown hrev
    rw [revoke_qr_owner db creds tenant_id req now qr hfind hten hown]
    refine ⟨rfl, by rw [if_pos hrev], ?_⟩
    intro c hc hcten
    rw [hc]
    simp [hcten]
  · intro t hown hrev
    rw [revoke_qr_owner db creds tenant_id req now qr hfind hten hown]
    refine ⟨rfl, ?_⟩
    rw [if_neg (by simp [hrev])]

/-- C7 witness: resident 8 cannot revoke the fixture token issued by
resident 3 (403, state untouched); resident 3 can, and revoking again at a
later time leaves the original stamp. -/
theorem revoke_qr_owner_only_and_idempotent_witness :
    revoke_qr [wToken] [wCred] 7 ⟨8, "tok", none⟩ 50 =
      { response := Except.error ⟨403, "Cannot revoke QR not issued by you"⟩
        qrAfter := some wToken
        credAfter := credOf [wCred] wToken
        audit := none } ∧
    (revoke_qr [{ wToken with revoked_at := some 50 }] [wCred] 7 ⟨3, "tok", none⟩ 60).qrAfter =
      some { wToken with revoked_at := some 50 } := by
  refine ⟨(revoke_qr_owner_only_and_idempotent [wToken] [wCred] 7 ⟨8, "tok", none⟩ 50 wToken
    (by decide) (by decide)).1 (by decide), ?_⟩
  exact ((revoke_qr_owner_only_and_idempotent [{ wToken with revoked_at := some 50 }] [wCred] 7
    ⟨3, "tok", none⟩ 60 { wToken with revoked_at := some 50 } (by decide) (by decide)).2.2
    50 (by decide) (by decide)).2

/-- C3: QR issuance draws random card numbers of the configured digit
width; each of the up-to-10 attempts provisions the fresh candidate into
both biometric devices and the loop stops at the first candidate both
accept; when no attempt succeeds the whole issuance fails with a 502
gateway error and no QrToken is persisted; when one succeeds the QrToken is
persisted recording that card number and both device hosts. -/
theorem issue_visit_qr_provisioning (s : AppSettings) (tenant_id : Nat)
    (req : IssueVisitQrRequest) (now : Int) (bio1Ok bio2Ok : String → Bool)
    (choice : Nat → Nat → Nat) (fresh_token : String)
    (visitor_id credential_id qr_id : Nat) :
    (∀ i, (random_digits (choice i) s.qr_card_digits).length = s.qr_card_digits ∧
      ((random_digits (choice i) s.qr_card_digits).data.all Char.isDigit) = true) ∧
    (∀ c, provision_card bio1Ok bio2Ok
        (fun i => random_digits (choice i) s.qr_card_digits) = some c →
      bio1Ok c = true ∧ bio2Ok c = true ∧
      ∃ i, i < 10 ∧ c = random_digits (choice i) s.qr_card_digits) ∧
    ((∀ i, i < 10 → (bio1Ok (random_digits (choice i) s.qr_card_digits) &&
        bio2Ok (random_digits (choice i) s.qr_card_digits)) = false) →
      provision_card bio1Ok bio2Ok
        (fun i => random_digits (choice i) s.qr_card_digits) = none) ∧
    (∀ allowed, validate_access_points req.allowed_access_points = Except.ok allowed →
      req.valid_from.getD now < req.valid_until →
      provision_card bio1Ok bio2Ok
        (fun i => random_digits (choice i) s.qr_card_digits) = none →
      issue_visit_qr s tenant_id req now bio1Ok bio2Ok choice fresh_token
          visitor_id credential_id qr_id =
        { response := Except.error
            ⟨502, "Failed to provision QR credential into biometric devices"⟩
          qrPersisted := none }) ∧
    (∀ allowed c, validate_access_points req.allowed_access_points = Except.ok allowed →
      req.valid_from.getD now < req.valid_until →
      provision_card bio1Ok bio2Ok
        (fun i => random_digits (choice i) s.qr_card_digits) = some c →
      ∃ qr, issue_visit_qr s tenant_id req now bio1Ok bio2Ok choice fresh_token
          visitor_id credential_id qr_id =
        { response := Except.ok
            { card_no := c
              token := fresh_token
              expires_at := req.valid_until
              provisioned := true
              provisioned_devices := [s.hik_bio1_host, s.hik_bio2_host] }
          qrPersisted := some qr } ∧
        qr.extra_card_no = some c ∧ qr.use_count = 0 ∧ qr.token = fresh_token ∧
        qr.expires_at = req.valid_until ∧ qr.max_uses = req.max_uses) := by
  refine ⟨fun i => random_digits_spec (choice i) s.qr_card_digits, ?_, ?_, ?_, ?_⟩
  · intro c hc
    unfold provision_card at hc
    rcases Option.map_eq_some'.mp hc with ⟨i, hfind, rfl⟩
    have hpred := List.find?_some hfind
    have hmem := List.mem_of_find?_eq_some hfind
    have hlt : i < 10 := List.mem_range.mp hmem
    simp only [Bool.and_eq_true] at hpred
    exact ⟨hpred.1, hpred.2, i, hlt, rfl⟩
  · intro h
    unfold provision_card
    rw [List.find?_eq_none.mpr]
    · rfl
    · intro i hi
      have hlt : i < 10 := List.mem_range.mp hi
      simp [h i hlt]
  · intro allowed hval hwin hprov
    unfold issue_visit_qr
    rw [hval]
    dsimp only
    rw [if_neg (not_le.mpr hwin), hprov]
  · intro allowed c hval hwin hprov
    have heq : issue_visit_qr s tenant_id req now bio1Ok bio2Ok choice fresh_token
        visitor_id credential_id qr_id =
      { response := Except.ok
          { card_no := c
            token := fresh_token
            expires_at := req.valid_until
            provisioned := true
            provisioned_devices := [s.hik_bio1_host, s.hik_bio2_host] }
        qrPersisted := some
          { id := qr_id
            condominium_id := tenant_id
            resident_id := some req.resident_id
            visitor_id := some visitor_id
            credential_id := some credential_id
            token := fresh_token
            allowed_access_points := allowed
            expires_at := req.valid_until
            used_at := none
            revoked_at := none
            max_uses := req.max_uses
            use_count := 0
            extra_visitor_name := some req.visitor_name
            extra_card_no := some c } } := by
      unfold issue_visit_qr
      rw [hval]
      dsimp only
      rw [if_neg (not_le.mpr hwin), hprov]
    exact ⟨_, heq, rfl, rfl, rfl, rfl, rfl⟩

/-- C3 witness: with three-digit cards, a candidate stream that always
draws "000" and both devices accepting it, issuance persists a QrToken with
card "000"; the per-attempt candidate has width 3 and only digits. -/
theorem issue_visit_qr_provisioning_witness :
    (∃ qr, issue_visit_qr wSettings 7 ⟨3, "Ana", none, some 0, 1000, ["pedestrian"], some 1, "guest"⟩ 5
        (fun c => c == "000") (fun _ => true) (fun _ _ => 0) "tk" 21 22 23 =
      { response := Except.ok
          { card_no := "000"
            token := "tk"
            expires_at := 1000
            provisioned := true
            provisioned_devices := ["bio1-host", "bio2-host"] }
        qrPersisted := some qr } ∧
      qr.extra_card_no = some "000" ∧ qr.use_count = 0 ∧ qr.token = "tk" ∧
      qr.expires_at = 1000 ∧ qr.max_uses = some 1) ∧
    (random_digits ((fun (_ _ : Nat) => 0) 0) 3).length = 3 := by
  have h := issue_visit_qr_provisioning wSettings 7
    ⟨3, "Ana", none, some 0, 1000, ["pedestrian"], some 1, "guest"⟩ 5
    (fun c => c == "000") (fun _ => true) (fun _ _ => 0) "tk" 21 22 23
  exact ⟨h.2.2.2.2 ["pedestrian"] "000" (by decide) (by decide) (by decide), (h.1 0).1⟩

lemma execute_fast_open_debounced (s : FastSettings) (st : DoorTarget → Option Int)
    (target : DoorTarget) (now : Int) (dev : Nat → String → Option Nat)
    (h : within_cooldown (st target) now s.FAST_OPEN_COOLDOWN_SECONDS = true) :
    execute_fast_open s st target now dev =
      ({ ok := true, message := "Listo. Ya se estaba abriendo.", debounced := true,
         logCtx := none, requests := 0 }, st) := by
  unfold execute_fast_open
  rw [if_pos h]

lemma execute_fast_open_run (s : FastSettings) (st : DoorTarget → Option Int)
    (target : DoorTarget) (now : Int) (dev : Nat → String → Option Nat)
    (h : within_cooldown (st target) now s.FAST_OPEN_COOLDOWN_SECONDS = false) :
    execute_fast_open s st target now dev =
      ({ ok := (isapi_open_door dev (target_config s target).ip
                  (target_config s target).xml_mode true).1
         message :=
           if (isapi_open_door dev (target_config s target).ip
                 (target_config s target).xml_mode true).1 then
             "Listo. " ++ (target_config s target).label ++ " abierto."
           else "No se pudo abrir " ++ (target_config s target).label
         debounced := false
         logCtx := some ⟨(target_config s target).access_point, (target_config s target).ip,
                         (target_config s target).door,
                         (isapi_open_door dev (target_config s target).ip
                            (target_config s target).xml_mode true).1⟩
         requests := (isapi_open_door dev (target_config s target).ip
                        (target_config s target).xml_mode true).2 },
       fun t => if t = target then some now else st t) := by
  unfold execute_fast_open
  rw [if_neg (by simp [h])]

lemma second_call_is_debounced (s : FastSettings) (st : DoorTarget → Option Int)
    (target : DoorTarget) (t1 t2 : Int) (dev dev2 : Nat → String → Option Nat)
    (h1 : within_cooldown (st target) t1 s.FAST_OPEN_COOLDOWN_SECONDS = false)
    (ht1 : t1 ≠ 0)
    (hwin : t2 - t1 < s.FAST_OPEN_COOLDOWN_SECONDS) :
    execute_fast_open s (execute_fast_open s st target t1 dev).2 target t2 dev2 =
      ({ ok := true, message := "Listo. Ya se estaba abriendo.", debounced := true,
         logCtx := none, requests := 0 }, (execute_fast_open s st target t1 dev).2) := by
  have hst : (execute_fast_open s st target t1 dev).2 target = some t1 := by
    rw [execute_fast_open_run s st target t1 dev h1]
    simp
  apply execute_fast_open_debounced
  rw [hst]
  unfold within_cooldown
  simp [ht1, hwin]

/-- C8 counterexample: for a strict-mode target whose first device request
fails and second succeeds, the first action issues 2 HTTP requests and the
debounced second action issues 0, so the pair yields 2 requests, not
exactly one. -/
theorem fast_open_single_request_cex :
    (execute_fast_open wFastSettings (fun _ => none)
        DoorTarget.vehicular_entry_panel 10 wDevSecond).1.ok = true ∧
    (execute_fast_open wFastSettings (fun _ => none)
        DoorTarget.vehicular_entry_panel 10 wDevSecond).1.requests = 2 ∧
    (execute_fast_open wFastSettings
        (execute_fast_open wFastSettings (fun _ => none)
          DoorTarget.vehicular_entry_panel 10 wDevSecond).2
        DoorTarget.vehicular_entry_panel 12 wDevSecond).1.debounced = true ∧
    (execute_fast_open wFastSettings
        (execute_fast_open wFastSettings (fun _ => none)
          DoorTarget.vehicular_entry_panel 10 wDevSecond).2
        DoorTarget.vehicular_entry_panel 12 wDevSecond).1.requests = 0 ∧
    2 + 0 ≠ 1 := by
  decide

/-- C8 (amended): the second of two identical fast-path actions within the
debounce window returns success immediately with debounced=true and issues
no device HTTP request, so the pair issues exactly as many requests as the
first action alone — exactly one when the first action's first device
request succeeds. -/
theorem fast_open_debounce_suppresses_second (s : FastSettings)
    (st : DoorTarget → Option Int) (target : DoorTarget) (t1 t2 : Int)
    (dev dev2 : Nat → String → Option Nat)
    (h1 : within_cooldown (st target) t1 s.FAST_OPEN_COOLDOWN_SECONDS = false)
    (ht1 : t1 ≠ 0)
    (hwin : t2 - t1 < s.FAST_OPEN_COOLDOWN_SECONDS) :
    (execute_fast_open s (execute_fast_open s st target t1 dev).2 target t2 dev2).1 =
      { ok := true, message := "Listo. Ya se estaba abriendo.", debounced := true,
        logCtx := none, requests := 0 } ∧
    (execute_fast_open s st target t1 dev).1.requests +
      (execute_fast_open s (execute_fast_open s st target t1 dev).2 target t2 dev2).1.requests =
      (execute_fast_open s st target t1 dev).1.requests ∧
    (∀ b rest, attempt_bodies (target_config s target).xml_mode true = b :: rest →
      ∀ c, dev 0 b = some c → (c = 200 ∨ c = 201 ∨ c = 204) →
      (target_config s target).ip ≠ "" →
      (execute_fast_open s st target t1 dev).1.requests = 1) := by
  have h2 := second_call_is_debounced s st target t1 t2 dev dev2 h1 ht1 hwin
  refine ⟨by rw [h2], by rw [h2]; rfl, ?_⟩
  intro b rest hb c hc hcode hip
  rw [execute_fast_open_run s st target t1 dev h1]
  show (isapi_open_door dev (target_config s target).ip
    (target_config s target).xml_mode true).2 = 1
  unfold isapi_open_door
  rw [if_neg hip, hb, run_attempts_head_success dev 0 b rest c hc hcode]

/-- C8 witness: against an always-accepting device, the first concrete
action issues exactly one request and the second within the window is
debounced with zero requests. -/
theorem fast_open_debounce_suppresses_second_witness :
    (execute_fast_open wFastSettings
        (execute_fast_open wFastSettings (fun _ => none)
          DoorTarget.vehicular_entry_panel 20 wDevUp).2
        DoorTarget.vehicular_entry_panel 22 wDevUp).1 =
      { ok := true, message := "Listo. Ya se estaba abriendo.", debounced := true,
        logCtx := none, requests := 0 } ∧
    (execute_fast_open wFastSettings (fun _ => none)
        DoorTarget.vehicular_entry_panel 20 wDevUp).1.requests = 1 := by
  have h := fast_open_debounce_suppresses_second wFastSettings (fun _ => none)
    DoorTarget.vehicular_entry_panel 20 22 wDevUp wDevUp (by decide) (by decide) (by decide)
  exact ⟨h.1, h.2.2 fastpath_strict_xml [fastpath_strict_xml] rfl 200 rfl (Or.inl rfl) (by decide)⟩

/-- C10: the fast path records the debounce timestamp before attempting the
device call: the post-state maps the action to the attempt time whatever
the device did, and even when the first action reports ok=false, an
identical action within the following window is suppressed and reported
ok=true with debounced=true and zero device requests. -/
theorem fast_open_debounce_recorded_before_call (s : FastSettings)
    (st : DoorTarget → Option Int) (target : DoorTarget) (t1 t2 : Int)
    (dev dev2 : Nat → String → Option Nat)
    (h1 : within_cooldown (st target) t1 s.FAST_OPEN_COOLDOWN_SECONDS = false)
    (ht1 : t1 ≠ 0)
    (hwin : t2 - t1 < s.FAST_OPEN_COOLDOWN_SECONDS) :
    (execute_fast_open s st target t1 dev).2 target = some t1 ∧
    ((execute_fast_open s st target t1 dev).1.ok = false →
      (execute_fast_open s (execute_fast_open s st target t1 dev).2 target t2 dev2).1 =
        { ok := true, message := "Listo. Ya se estaba abriendo.", debounced := true,
          logCtx := none, requests := 0 }) := by
  constructor
  · rw [execute_fast_open_run s st target t1 dev h1]
    simp
  · intro _
    rw [second_call_is_debounced s st target t1 t2 dev dev2 h1 ht1 hwin]

/-- C10 witness: a concrete first action whose every device request fails
still stamps the debounce map, and the identical action 2 s later is
reported ok=true with debounced=true. -/
theorem fast_open_debounce_recorded_before_call_witness :
    (execute_fast_open wFastSettings (fun _ => none)
        DoorTarget.vehicular_exit_panel 10 wDevDown).1.ok = false ∧
    (execute_fast_open wFastSettings (fun _ => none)
        DoorTarget.vehicular_exit_panel 10 wDevDown).2 DoorTarget.vehicular_exit_panel = some 10 ∧
    (execute_fast_open wFastSettings
        (execute_fast_open wFastSettings (fun _ => none)
          DoorTarget.vehicular_exit_panel 10 wDevDown).2
        DoorTarget.vehicular_exit_panel 12 wDevDown).1 =
      { ok := true, message := "Listo. Ya se estaba abriendo.", debounced := true,
        logCtx := none, requests := 0 } := by
  have h := fast_open_debounce_recorded_before_call wFastSettings (fun _ => none)
    DoorTarget.vehicular_exit_panel 10 12 wDevDown wDevDown (by decide) (by decide) (by decide)
  exact ⟨by decide, h.1, h.2 (by decide)⟩
